import Mathlib

/-!
Verification of the workflow-definition notebook
`notebooks/databricks_control_flow.py`.

The notebook builds four workflow dictionaries (`dbt_pipeline_workflow`,
`conditional_workflow`, `foreach_workflow`, `parameterized_workflow`) and a
standalone task configuration (`error_handling_config`), and prints their
JSON encodings.  We embed the data model of those dictionaries, the four
concrete workflow values, a JSON value type with a serializer mirroring
`json.dumps` structure, and — where the spec describes builder operations
that have no code in the repository — definitions modelled from the spec.
-/

set_option maxRecDepth 100000

namespace Wf

/-- One entry of a task's `depends_on` list: a predecessor `task_key` and an
optional `outcome` tag (`"true"` / `"false"` on edges out of condition
tasks). -/
structure DependsOnEntry where
  task_key : String
  outcome : Option String := none
deriving Repr, DecidableEq

/-- Retry fields of a task (the spec's `retry_policy`): the notebook's
`max_retries` and `min_retry_interval_millis` fields. -/
structure RetryPolicy where
  max_retries : Nat
  min_retry_interval_millis : Nat
deriving Repr, DecidableEq

/-- The payload variant of a task: exactly one of the notebook's
`dbt_task`, `sql_task`, `notebook_task`, `condition_task`, `for_each_task`
fields.  A `for_each_task` carries a nested task (its key and payload) and a
concurrency bound. -/
inductive TaskPayload where
  | dbtTask (project_directory : String) (commands : List String)
      (schema : String) (warehouse_id : String)
  | sqlTask (query_text : String) (warehouse_id : String)
  | notebookTask (notebook_path : String) (base_parameters : List (String × String))
  | conditionTask (op : String) (left : String) (right : String)
  | forEachTask (inputs : String) (nested_key : String)
      (nested_payload : TaskPayload) (concurrency : Nat)
deriving Repr, DecidableEq

/-- A task of a workflow, as the notebook's task dictionaries: a `task_key`,
optional `description`, the `depends_on` list (absent in the dictionary when
empty), the payload variant, and optional `timeout_seconds` and retry
fields. -/
structure Task where
  task_key : String
  description : Option String := none
  depends_on : List DependsOnEntry := []
  payload : TaskPayload
  timeout_seconds : Option Nat := none
  retry_policy : Option RetryPolicy := none
deriving Repr, DecidableEq

/-- The `schedule` block of `dbt_pipeline_workflow`. -/
structure Schedule where
  quartz_cron_expression : String
  timezone_id : String
  pause_status : String
deriving Repr, DecidableEq

/-- The `email_notifications` block: lists of addresses per event. -/
structure EmailNotifications where
  on_start : List String := []
  on_success : List String := []
  on_failure : List String := []
deriving Repr, DecidableEq

/-- A workflow (job) definition, as the notebook's top-level dictionaries:
`name`, optional `description`, optional `schedule`, optional
`email_notifications`, job-level `parameters` (name/default pairs), the
`tasks` list and optional `max_concurrent_runs`. -/
structure Workflow where
  name : String
  description : Option String := none
  schedule : Option Schedule := none
  email_notifications : Option EmailNotifications := none
  parameters : List (String × String) := []
  tasks : List Task
  max_concurrent_runs : Option Nat := none
deriving Repr, DecidableEq

/-- The repository directory string shared by all dbt tasks. -/
def projDir : String := "/Workspace/Repos/iot-dbt-databricks"

/-- The warehouse id string shared by all tasks. -/
def whId : String := "0b4eee1bcc7b2623"

/-- `dbt_pipeline_workflow` (notebook section 2): four chained dbt tasks
`dbt_seed → dbt_run_bronze_silver → dbt_test_silver → dbt_run_gold`. -/
def dbt_pipeline_workflow : Workflow where
  name := "iot_dbt_pipeline"
  description := some "IoT Smart Factory — dbt Bronze → Silver → Gold pipeline"
  schedule := some
    { quartz_cron_expression := "0 0 6 * * ?"
      timezone_id := "UTC"
      pause_status := "PAUSED" }
  email_notifications := some { on_failure := ["team@company.com"] }
  tasks :=
    [ { task_key := "dbt_seed"
        description := some "Load seed data (CSV → Delta tables)"
        payload := .dbtTask projDir ["dbt seed --full-refresh"] "iot_dev" whId
        timeout_seconds := some 600 },
      { task_key := "dbt_run_bronze_silver"
        description := some "Build Bronze and Silver layer models"
        depends_on := [{ task_key := "dbt_seed" }]
        payload := .dbtTask projDir ["dbt run --select tag:bronze tag:silver"] "iot_dev" whId
        timeout_seconds := some 1200 },
      { task_key := "dbt_test_silver"
        description := some "Run data quality tests on Silver layer"
        depends_on := [{ task_key := "dbt_run_bronze_silver" }]
        payload := .dbtTask projDir ["dbt test --select tag:silver"] "iot_dev" whId
        timeout_seconds := some 600 },
      { task_key := "dbt_run_gold"
        description := some "Build Gold layer models (only if Silver tests pass)"
        depends_on := [{ task_key := "dbt_test_silver" }]
        payload := .dbtTask projDir ["dbt run --select tag:gold"] "iot_dev" whId
        timeout_seconds := some 1200 } ]
  max_concurrent_runs := some 1

/-- `conditional_workflow` (notebook section 3): SQL check, a condition task
`evaluate_anomalies`, and two outcome-tagged dbt branches. -/
def conditional_workflow : Workflow where
  name := "iot_conditional_pipeline"
  description := some "Pipeline with conditional Gold refresh based on anomaly count"
  tasks :=
    [ { task_key := "check_anomaly_count"
        description := some "Count anomalies in Silver layer"
        payload := .sqlTask "\n                        SELECT CASE \n                            WHEN count(*) > 50 THEN \x27HIGH_ANOMALIES\x27\n                            ELSE \x27NORMAL\x27\n                        END as anomaly_status\n                        FROM workspace.iot_dev_silver.int_sensor_readings_cleaned\n                        WHERE is_anomaly = true\n                    " whId },
      { task_key := "evaluate_anomalies"
        description := some "IF anomaly count > 50 → run full refresh, ELSE → normal incremental"
        depends_on := [{ task_key := "check_anomaly_count" }]
        payload := .conditionTask "EQUAL_TO"
          "\x7b\x7btasks.check_anomaly_count.values.anomaly_status\x7d\x7d"
          "HIGH_ANOMALIES" },
      { task_key := "full_refresh_gold"
        description := some "Full refresh Gold tables due to high anomaly count"
        depends_on := [{ task_key := "evaluate_anomalies", outcome := some "true" }]
        payload := .dbtTask projDir ["dbt run --select tag:gold --full-refresh"] "iot_dev" whId },
      { task_key := "incremental_gold"
        description := some "Normal incremental Gold update"
        depends_on := [{ task_key := "evaluate_anomalies", outcome := some "false" }]
        payload := .dbtTask projDir ["dbt run --select tag:gold"] "iot_dev" whId } ]

/-- `foreach_workflow` (notebook section 4): SQL task listing plants, a
ForEach task running a nested health check per plant with concurrency 3,
then an aggregation notebook task. -/
def foreach_workflow : Workflow where
  name := "iot_per_plant_analysis"
  description := some "Run device health analysis for each plant location"
  tasks :=
    [ { task_key := "get_plant_locations"
        description := some "Retrieve distinct plant locations"
        payload := .sqlTask "\n                        SELECT DISTINCT plant_location \n                        FROM workspace.iot_dev_gold.dim_devices\n                    " whId },
      { task_key := "analyze_per_plant"
        description := some "Run health analysis for each plant"
        depends_on := [{ task_key := "get_plant_locations" }]
        payload := .forEachTask "\x7b\x7btasks.get_plant_locations.values\x7d\x7d"
          "plant_health_check"
          (.sqlTask "\n                                SELECT \n                                    \x27\x7b\x7binput\x7d\x7d\x27 as plant,\n                                    count(*) as total_readings,\n                                    round(avg(health_score), 1) as avg_health,\n                                    sum(CASE WHEN health_category = \x27critical\x27 THEN 1 ELSE 0 END) as critical_count\n                                FROM workspace.iot_dev_gold.fct_device_summary s\n                                JOIN workspace.iot_dev_gold.dim_devices d \n                                    ON s.device_id = d.device_id\n                                WHERE d.plant_location = \x27\x7b\x7binput\x7d\x7d\x27\n                            " whId)
          3 },
      { task_key := "aggregate_results"
        description := some "Combine per-plant results into summary"
        depends_on := [{ task_key := "analyze_per_plant" }]
        payload := .notebookTask
          "/Workspace/Repos/iot-dbt-databricks/notebooks/aggregate_health"
          [("run_date", "\x7b\x7bjob.start_time.iso_date\x7d\x7d")] } ]

/-- `parameterized_workflow` (notebook section 6): job-level parameters and
two tasks referencing them through templated strings. -/
def parameterized_workflow : Workflow where
  name := "iot_parameterized_pipeline"
  description := some "Pipeline with environment and threshold parameters"
  parameters :=
    [ ("environment", "dev"),
      ("temperature_threshold", "85.0"),
      ("run_full_refresh", "false") ]
  tasks :=
    [ { task_key := "dbt_run_parameterized"
        description := some "Run dbt with dynamic parameters"
        payload := .dbtTask projDir
          ["dbt run --target \x7b\x7bjob.parameters.environment\x7d\x7d --vars \x27\x7btemperature_upper: \x7b\x7bjob.parameters.temperature_threshold\x7d\x7d\x7d\x27 \x7b% if job.parameters.run_full_refresh == \x27true\x27 %\x7d--full-refresh\x7b% endif %\x7d"]
          "iot_\x7b\x7bjob.parameters.environment\x7d\x7d" whId },
      { task_key := "log_run_metadata"
        description := some "Log run metadata for audit trail"
        depends_on := [{ task_key := "dbt_run_parameterized" }]
        payload := .sqlTask "\n                        INSERT INTO workspace.iot_audit.run_log\n                        VALUES (\n                            current_timestamp(),\n                            \x27\x7b\x7bjob.parameters.environment\x7d\x7d\x27,\n                            \x27\x7b\x7bjob.parameters.temperature_threshold\x7d\x7d\x27,\n                            \x27\x7b\x7btasks.dbt_run_parameterized.result_state\x7d\x7d\x27\n                        )\n                    " whId } ]

/-- The four workflow definitions the notebook constructs, in order. -/
def allWorkflows : List Workflow :=
  [dbt_pipeline_workflow, conditional_workflow, foreach_workflow, parameterized_workflow]

/-- A JSON value, the shape of what `json.dumps` serializes: strings,
numbers (all numbers in the notebook are naturals), booleans, arrays and
objects with ordered fields. -/
inductive JValue where
  | str (s : String)
  | num (n : Nat)
  | bool (b : Bool)
  | arr (xs : List JValue)
  | obj (fields : List (String × JValue))
deriving Repr

/-- Look up a field of a JSON object. -/
def JValue.getField : JValue → String → Option JValue
  | .obj fs, k => fs.lookup k
  | _, _ => none

/-- Serialize a `depends_on` entry: `task_key`, plus `outcome` when tagged. -/
def serializeDependsOn (d : DependsOnEntry) : JValue :=
  .obj ([("task_key", .str d.task_key)] ++
    (match d.outcome with
     | some oc => [("outcome", JValue.str oc)]
     | none => []))

/-- Serialize a task payload as its single variant field, `("field name",
value)`, mirroring the notebook's dictionaries (the `sql_task` value nests
the query text under `query.query_text`). -/
def serializePayload : TaskPayload → String × JValue
  | .dbtTask dir cmds schema wh =>
      ("dbt_task", .obj
        [ ("project_directory", .str dir),
          ("commands", .arr (cmds.map .str)),
          ("schema", .str schema),
          ("warehouse_id", .str wh) ])
  | .sqlTask q wh =>
      ("sql_task", .obj
        [ ("query", .obj [("query_text", .str q)]),
          ("warehouse_id", .str wh) ])
  | .notebookTask path params =>
      ("notebook_task", .obj
        [ ("notebook_path", .str path),
          ("base_parameters", .obj (params.map (fun p => (p.1, JValue.str p.2)))) ])
  | .conditionTask op l r =>
      ("condition_task", .obj
        [ ("op", .str op), ("left", .str l), ("right", .str r) ])
  | .forEachTask inputs nk np conc =>
      ("for_each_task", .obj
        [ ("inputs", .str inputs),
          ("task", .obj ([("task_key", JValue.str nk)] ++ [serializePayload np])),
          ("concurrency", .num conc) ])

/-- Serialize a task: `task_key`, optional `description`, `depends_on` when
nonempty (the notebook's dictionaries omit it for root tasks), the payload
variant field, optional `timeout_seconds` and retry fields. -/
def serializeTask (t : Task) : JValue :=
  .obj
    ([("task_key", .str t.task_key)] ++
     (match t.description with
      | some d => [("description", JValue.str d)]
      | none => []) ++
     (match t.depends_on with
      | [] => []
      | ds => [("depends_on", JValue.arr (ds.map serializeDependsOn))]) ++
     [serializePayload t.payload] ++
     (match t.timeout_seconds with
      | some n => [("timeout_seconds", JValue.num n)]
      | none => []) ++
     (match t.retry_policy with
      | some rp =>
          [ ("max_retries", JValue.num rp.max_retries),
            ("min_retry_interval_millis", JValue.num rp.min_retry_interval_millis) ]
      | none => []))

/-- Serialize the notifications block, omitting empty address lists as the
notebook's dictionaries do. -/
def serializeEmail (e : EmailNotifications) : JValue :=
  .obj
    ((match e.on_start with
      | [] => []
      | xs => [("on_start", JValue.arr (xs.map JValue.str))]) ++
     (match e.on_success with
      | [] => []
      | xs => [("on_success", JValue.arr (xs.map JValue.str))]) ++
     (match e.on_failure with
      | [] => []
      | xs => [("on_failure", JValue.arr (xs.map JValue.str))]))

/-- Serialize a workflow into its wire document, with fields in the order the
notebook's dictionaries use: `name`, `description`, `schedule`,
`email_notifications`, `parameters`, `tasks`, `max_concurrent_runs`. -/
def serializeWorkflow (w : Workflow) : JValue :=
  .obj
    ([("name", .str w.name)] ++
     (match w.description with
      | some d => [("description", JValue.str d)]
      | none => []) ++
     (match w.schedule with
      | some s =>
          [("schedule", JValue.obj
             [ ("quartz_cron_expression", .str s.quartz_cron_expression),
               ("timezone_id", .str s.timezone_id),
               ("pause_status", .str s.pause_status) ])]
      | none => []) ++
     (match w.email_notifications with
      | some e => [("email_notifications", serializeEmail e)]
      | none => []) ++
     (match w.parameters with
      | [] => []
      | ps => [("parameters", JValue.arr (ps.map (fun p =>
          JValue.obj [("name", .str p.1), ("default", .str p.2)])))]) ++
     [("tasks", .arr (w.tasks.map serializeTask))] ++
     (match w.max_concurrent_runs with
      | some n => [("max_concurrent_runs", JValue.num n)]
      | none => []))

/-- The `task_key` values of a workflow's tasks, in declaration order. -/
def taskKeys (w : Workflow) : List String := w.tasks.map (·.task_key)

/-- The dependency edges of a workflow, as (predecessor key, dependent key)
pairs read off the `depends_on` lists. -/
def depEdges (w : Workflow) : List (String × String) :=
  w.tasks.flatMap (fun t => t.depends_on.map (fun d => (d.task_key, t.task_key)))

/-- Does every `depends_on` entry of the workflow refer to a declared task? -/
def depsDeclared (w : Workflow) : Bool :=
  w.tasks.all (fun t => t.depends_on.all (fun d => (taskKeys w).contains d.task_key))

/-- One pruning pass: keep the nodes that still have an incoming edge from a
remaining node. -/
def pruneSources (edges : List (String × String)) (nodes : List String) : List String :=
  nodes.filter (fun k => edges.any (fun e => e.2 == k && nodes.contains e.1))

/-- Fueled acyclicity check: repeatedly discard nodes with no remaining
predecessor; the graph is acyclic iff all nodes are eventually discarded. -/
def acyclicAux : Nat → List (String × String) → List String → Bool
  | 0, _, nodes => nodes.isEmpty
  | fuel + 1, edges, nodes =>
      nodes.isEmpty || acyclicAux fuel edges (pruneSources edges nodes)

/-- Is the dependency graph of the workflow acyclic? -/
def acyclic (w : Workflow) : Bool :=
  acyclicAux (w.tasks.length + 1) (depEdges w) (taskKeys w)

/-- Is the payload a `condition_task`? -/
def TaskPayload.isCondition : TaskPayload → Bool
  | .conditionTask _ _ _ => true
  | _ => false

/-- The successor edges out of `key` tagged with outcome `oc`: the dependent
task's key, one per matching `depends_on` entry. -/
def outcomeEdges (w : Workflow) (key : String) (oc : String) : List String :=
  w.tasks.flatMap (fun t => t.depends_on.filterMap (fun d =>
    if d.task_key == key && d.outcome == some oc then some t.task_key else none))

/-- All outcome-tagged successor edges out of `key`, as (dependent key,
outcome tag) pairs. -/
def taggedEdges (w : Workflow) (key : String) : List (String × String) :=
  w.tasks.flatMap (fun t => t.depends_on.filterMap (fun d =>
    match d.outcome with
    | some oc => if d.task_key == key then some (t.task_key, oc) else none
    | none => none))

/-- Does every condition task of the workflow have exactly two outgoing
outcome-tagged successor edges, exactly one tagged `"true"` and exactly one
tagged `"false"`? -/
def branchesComplete (w : Workflow) : Bool :=
  w.tasks.all (fun t =>
    !t.payload.isCondition ||
      ((taggedEdges w t.task_key).length == 2 &&
       (outcomeEdges w t.task_key "true").length == 1 &&
       (outcomeEdges w t.task_key "false").length == 1))

/-- Does every outcome-tagged `depends_on` entry of the workflow point at a
condition task? -/
def outcomesOnlyOnConditions (w : Workflow) : Bool :=
  w.tasks.all (fun t => t.depends_on.all (fun d =>
    d.outcome.isNone ||
      w.tasks.any (fun s => s.task_key == d.task_key && s.payload.isCondition)))

/-- The concurrency bounds of the workflow's ForEach payloads, in order. -/
def forEachConcurrencies (w : Workflow) : List Nat :=
  w.tasks.filterMap (fun t =>
    match t.payload with
    | .forEachTask _ _ _ c => some c
    | _ => none)

/-- Extract the string of a JSON value. -/
def JValue.asString : JValue → Option String
  | .str s => some s
  | _ => none

/-- Extract the natural number of a JSON value. -/
def JValue.asNat : JValue → Option Nat
  | .num n => some n
  | _ => none

/-- Extract the element list of a JSON array. -/
def JValue.asArr : JValue → Option (List JValue)
  | .arr xs => some xs
  | _ => none

/-- Extract a list of strings from a JSON array of strings. -/
def asStrList (j : JValue) : Option (List String) :=
  j.asArr.bind (List.mapM JValue.asString)

/-- The local error taxonomy of the spec's builder/validator. -/
inductive BuilderError where
  | duplicateKeyError
  | unknownTaskError
  | cycleError (member : String)
  | incompleteBranchError
  | invalidConcurrencyError
deriving Repr, DecidableEq

/-- Modelled from the spec: the builder operation `add_task(key, payload,
timeout, retry_policy)`, absent from the repository (which only writes task
dictionaries inline).  It fails with `DuplicateKeyError` if `key` is already
present in the workflow; otherwise it returns the extended workflow and a
handle (the key), mutating nothing but the local graph. -/
def add_task (w : Workflow) (key : String) (payload : TaskPayload)
    (timeout : Option Nat) (retry_policy : Option RetryPolicy) :
    Except BuilderError (Workflow × String) :=
  if (taskKeys w).contains key then .error .duplicateKeyError
  else .ok
    ({ w with tasks := w.tasks ++
        [{ task_key := key, payload := payload, timeout_seconds := timeout,
           retry_policy := retry_policy }] }, key)

/-- Modelled from the spec: the builder operation `add_for_each(key,
input_ref, sub_task_template, concurrency)`, absent from the repository.  It
fails with `InvalidConcurrencyError` if `concurrency < 1`, and otherwise
adds a ForEach node carrying the template and the bound. -/
def add_for_each (w : Workflow) (key : String) (input_ref : String)
    (sub_key : String) (sub_template : TaskPayload) (concurrency : Nat) :
    Except BuilderError (Workflow × String) :=
  if concurrency < 1 then .error .invalidConcurrencyError
  else add_task w key (.forEachTask input_ref sub_key sub_template concurrency) none none

/-- Modelled from the spec: parsing one `depends_on` entry of the wire
document back into the builder's representation (the repository has no
parser; the spec's round-trip property requires one). -/
def parseDependsOn (j : JValue) : Option DependsOnEntry := do
  let k ← (j.getField "task_key").bind JValue.asString
  let oc ← match j.getField "outcome" with
    | none => some none
    | some v => v.asString.map some
  pure { task_key := k, outcome := oc }

/-- Modelled from the spec: parsing the payload variant field of a task
object of the wire document.  Fueled because a ForEach payload nests a task
object. -/
def parsePayload : Nat → JValue → Option TaskPayload
  | 0, _ => none
  | fuel + 1, j =>
    match j.getField "dbt_task" with
    | some p => do
        let dir ← (p.getField "project_directory").bind JValue.asString
        let cmds ← (p.getField "commands").bind asStrList
        let schema ← (p.getField "schema").bind JValue.asString
        let wh ← (p.getField "warehouse_id").bind JValue.asString
        pure (.dbtTask dir cmds schema wh)
    | none =>
    match j.getField "sql_task" with
    | some p => do
        let q ← (p.getField "query").bind (fun qj =>
          (qj.getField "query_text").bind JValue.asString)
        let wh ← (p.getField "warehouse_id").bind JValue.asString
        pure (.sqlTask q wh)
    | none =>
    match j.getField "notebook_task" with
    | some p => do
        let path ← (p.getField "notebook_path").bind JValue.asString
        let params ← match p.getField "base_parameters" with
          | some (.obj fs) => fs.mapM (fun kv => (kv.2.asString).map (fun v => (kv.1, v)))
          | _ => none
        pure (.notebookTask path params)
    | none =>
    match j.getField "condition_task" with
    | some p => do
        let op ← (p.getField "op").bind JValue.asString
        let l ← (p.getField "left").bind JValue.asString
        let r ← (p.getField "right").bind JValue.asString
        pure (.conditionTask op l r)
    | none =>
    match j.getField "for_each_task" with
    | some p => do
        let inputs ← (p.getField "inputs").bind JValue.asString
        let tj ← p.getField "task"
        let nk ← (tj.getField "task_key").bind JValue.asString
        let np ← parsePayload fuel tj
        let c ← (p.getField "concurrency").bind JValue.asNat
        pure (.forEachTask inputs nk np c)
    | none => none

/-- Modelled from the spec: parsing one task object of the wire document. -/
def parseTask (fuel : Nat) (j : JValue) : Option Task := do
  let k ← (j.getField "task_key").bind JValue.asString
  let desc ← match j.getField "description" with
    | none => some none
    | some v => v.asString.map some
  let deps ← match j.getField "depends_on" with
    | none => some []
    | some (.arr ds) => ds.mapM parseDependsOn
    | some _ => none
  let p ← parsePayload fuel j
  let timeout ← match j.getField "timeout_seconds" with
    | none => some none
    | some v => v.asNat.map some
  let rp ← match j.getField "max_retries", j.getField "min_retry_interval_millis" with
    | none, none => some none
    | some mr, some mi => do
        let mr ← mr.asNat
        let mi ← mi.asNat
        pure (some { max_retries := mr, min_retry_interval_millis := mi })
    | _, _ => none
  pure { task_key := k, description := desc, depends_on := deps, payload := p,
         timeout_seconds := timeout, retry_policy := rp }

/-- Modelled from the spec: parsing the `schedule` block. -/
def parseSchedule (j : JValue) : Option Schedule := do
  let q ← (j.getField "quartz_cron_expression").bind JValue.asString
  let tz ← (j.getField "timezone_id").bind JValue.asString
  let ps ← (j.getField "pause_status").bind JValue.asString
  pure { quartz_cron_expression := q, timezone_id := tz, pause_status := ps }

/-- Modelled from the spec: parsing the `email_notifications` block (absent
lists parse to the empty list, matching the serializer's omission). -/
def parseEmail (j : JValue) : Option EmailNotifications := do
  let st ← match j.getField "on_start" with
    | none => some []
    | some v => asStrList v
  let su ← match j.getField "on_success" with
    | none => some []
    | some v => asStrList v
  let fa ← match j.getField "on_failure" with
    | none => some []
    | some v => asStrList v
  pure { on_start := st, on_success := su, on_failure := fa }

/-- Modelled from the spec: `parse`, the inverse direction of the spec's
round-trip property `parse(serialize(w)) = w`; the repository has no parser,
so this is the spec's wire schema read back into the builder's
representation. -/
def parseWorkflow (j : JValue) : Option Workflow := do
  let name ← (j.getField "name").bind JValue.asString
  let desc ← match j.getField "description" with
    | none => some none
    | some v => v.asString.map some
  let sched ← match j.getField "schedule" with
    | none => some none
    | some v => (parseSchedule v).map some
  let email ← match j.getField "email_notifications" with
    | none => some none
    | some v => (parseEmail v).map some
  let params ← match j.getField "parameters" with
    | none => some []
    | some (.arr ps) => ps.mapM (fun p => do
        let n ← (p.getField "name").bind JValue.asString
        let d ← (p.getField "default").bind JValue.asString
        pure (n, d))
    | some _ => none
  let ts ← (j.getField "tasks").bind JValue.asArr
  let tasks ← ts.mapM (parseTask 8)
  let mcr ← match j.getField "max_concurrent_runs" with
    | none => some none
    | some v => v.asNat.map some
  pure { name := name, description := desc, schedule := sched,
         email_notifications := email, parameters := params, tasks := tasks,
         max_concurrent_runs := mcr }

/-- Is the JSON value a string? -/
def isStrVal : JValue → Bool
  | .str _ => true
  | _ => false

/-- Shape of one wire `depends_on` entry: an object with a string `task_key`
and, when present, a string `outcome`. -/
def depEntryShape (j : JValue) : Bool :=
  (match j with
   | .obj _ => true
   | _ => false) &&
  (match j.getField "task_key" with
   | some (.str _) => true
   | _ => false) &&
  (match j.getField "outcome" with
   | none => true
   | some (.str _) => true
   | some _ => false)

/-- The five payload variant field names of the wire schema. -/
def payloadFieldNames : List String :=
  ["sql_task", "dbt_task", "notebook_task", "condition_task", "for_each_task"]

/-- How many payload variant fields the task object carries. -/
def payloadFieldCount (j : JValue) : Nat :=
  (payloadFieldNames.filter (fun k => (j.getField k).isSome)).length

/-- Shape of one wire task object: a string `task_key`, at most one payload
variant field, and `depends_on` (when present) an array of well-shaped
entries. -/
def taskShape (j : JValue) : Bool :=
  (match j.getField "task_key" with
   | some (.str _) => true
   | _ => false) &&
  Nat.ble (payloadFieldCount j) 1 &&
  (match j.getField "depends_on" with
   | none => true
   | some (.arr ds) => ds.all depEntryShape
   | some _ => false)

/-- Required top-level wire shape of a workflow document: a string `name`
and a `tasks` array of well-shaped task objects. -/
def wireShape (doc : JValue) : Bool :=
  (match doc.getField "name" with
   | some (.str _) => true
   | _ => false) &&
  (match doc.getField "tasks" with
   | some (.arr ts) => ts.all taskShape
   | _ => false)

/-- All string values (and field names) occurring in a JSON document, to
bounded depth. -/
def jStrings : Nat → JValue → List String
  | 0, _ => []
  | _ + 1, .str s => [s]
  | _ + 1, .num _ => []
  | _ + 1, .bool _ => []
  | fuel + 1, .arr xs => xs.flatMap (jStrings fuel)
  | fuel + 1, .obj fs => fs.flatMap (fun kv => kv.1 :: jStrings fuel kv.2)

/-- All string values occurring in a task payload. -/
def payloadStrings : TaskPayload → List String
  | .dbtTask dir cmds schema wh => dir :: cmds ++ [schema, wh]
  | .sqlTask q wh => [q, wh]
  | .notebookTask path params => path :: params.flatMap (fun kv => [kv.1, kv.2])
  | .conditionTask op l r => [op, l, r]
  | .forEachTask inputs nk np _ => inputs :: nk :: payloadStrings np

/-- All string values occurring in a task. -/
def taskStrings (t : Task) : List String :=
  t.task_key :: t.description.toList ++
    t.depends_on.flatMap (fun d => d.task_key :: d.outcome.toList) ++
    payloadStrings t.payload

/-- All string values occurring in a workflow definition. -/
def workflowStrings (w : Workflow) : List String :=
  w.name :: w.description.toList ++
    (match w.schedule with
     | some s => [s.quartz_cron_expression, s.timezone_id, s.pause_status]
     | none => []) ++
    (match w.email_notifications with
     | some e => e.on_start ++ e.on_success ++ e.on_failure
     | none => []) ++
    w.parameters.flatMap (fun p => [p.1, p.2]) ++
    w.tasks.flatMap taskStrings

/-- Does `pat` occur as a contiguous sublist of `s`? -/
def listSub (s pat : List Char) : Bool :=
  (List.range (s.length + 1)).any (fun i => ((s.drop i).take pat.length) == pat)

/-- Does the string contain a `{{` template opener? -/
def hasPlaceholder (s : String) : Bool :=
  listSub s.data "\x7b\x7b".data

/-- `error_handling_config` (notebook section 5): a standalone task
dictionary with retry, timeout, notification and health fields; it is only
printed, never placed in a workflow. -/
def error_handling_config : JValue :=
  .obj
    [ ("task_key", .str "dbt_run_with_retries"),
      ("description", .str "dbt run with robust error handling"),
      ("dbt_task", .obj
        [ ("project_directory", .str projDir),
          ("commands", .arr [.str "dbt run --select tag:gold"]),
          ("schema", .str "iot_dev"),
          ("warehouse_id", .str whId) ]),
      ("retry_on_timeout", .bool true),
      ("max_retries", .num 3),
      ("min_retry_interval_millis", .num 30000),
      ("timeout_seconds", .num 1800),
      ("email_notifications", .obj
        [ ("on_start", .arr [.str "data-team@company.com"]),
          ("on_success", .arr [.str "data-team@company.com"]),
          ("on_failure", .arr [.str "oncall@company.com", .str "data-team@company.com"]) ]),
      ("health", .obj
        [ ("rules", .arr
            [ .obj
                [ ("metric", .str "RUN_DURATION_SECONDS"),
                  ("op", .str "GREATER_THAN"),
                  ("value", .num 900) ] ]) ]) ]

/-- An observable effect of running the notebook top to bottom.  Printing is
the only effect the module-level code performs; the HTTP-submission,
environment-variable and secret reads exist only inside a comment block and
are represented here so their absence from the trace is a statement, not a
vacuity. -/
inductive Effect where
  | printStr (s : String)
  | printJson (doc : JValue)
  | httpPost (url : String) (body : JValue)
  | readEnv (name : String)
  | readSecret (scope : String) (key : String)

/-- Is the effect a print (of a banner string or of a JSON dump)? -/
def Effect.isPrint : Effect → Bool
  | .printStr _ => true
  | .printJson _ => true
  | _ => false

/-- The effect trace of executing the notebook's module-level statements in
order: five banner prints, each followed by the JSON dump of the dictionary
just built. -/
def notebookTrace : List Effect :=
  [ .printStr "✅ Multi-Task dbt Pipeline Workflow Definition:",
    .printJson (serializeWorkflow dbt_pipeline_workflow),
    .printStr "✅ Conditional Workflow (IF/ELSE):",
    .printJson (serializeWorkflow conditional_workflow),
    .printStr "✅ ForEach Workflow (Loop Over Plants):",
    .printJson (serializeWorkflow foreach_workflow),
    .printStr "✅ Error Handling Configuration:",
    .printJson error_handling_config,
    .printStr "✅ Parameterized Workflow:",
    .printJson (serializeWorkflow parameterized_workflow) ]

/-- The `tasks` array of a wire document (empty when absent or not an
array). -/
def docTasks (doc : JValue) : List JValue :=
  match doc.getField "tasks" with
  | some (.arr ts) => ts
  | _ => []

/-- The `task_key` string of a wire task object. -/
def docTaskKey (j : JValue) : Option String :=
  (j.getField "task_key").bind JValue.asString

/-- The predecessor keys of a wire task object's `depends_on` field, `none`
when the field is absent. -/
def docDepKeys (j : JValue) : Option (List String) :=
  match j.getField "depends_on" with
  | some (.arr ds) => some (ds.filterMap (fun d => (d.getField "task_key").bind JValue.asString))
  | _ => none

/-- Does `pat` occur as a substring of `s`? -/
def containsSub (s pat : String) : Bool :=
  listSub s.data pat.data

/-- C1: serializing the four-task linear dbt pipeline yields a document
whose `tasks` array has exactly 4 entries, in order `dbt_seed`,
`dbt_run_bronze_silver`, `dbt_test_silver`, `dbt_run_gold`; `dbt_seed`
carries no `depends_on` and each other entry depends on exactly its single
declared predecessor; and parsing the document back reconstructs a workflow
equal to the original. -/
theorem dbt_pipeline_roundtrip :
    (docTasks (serializeWorkflow dbt_pipeline_workflow)).length = 4
  ∧ (docTasks (serializeWorkflow dbt_pipeline_workflow)).map docTaskKey =
      [some "dbt_seed", some "dbt_run_bronze_silver",
       some "dbt_test_silver", some "dbt_run_gold"]
  ∧ (docTasks (serializeWorkflow dbt_pipeline_workflow)).map docDepKeys =
      [none, some ["dbt_seed"], some ["dbt_run_bronze_silver"], some ["dbt_test_silver"]]
  ∧ parseWorkflow (serializeWorkflow dbt_pipeline_workflow) = some dbt_pipeline_workflow :=
  ⟨rfl, rfl, rfl, rfl⟩

/-- C2: in each of the four workflow definitions the notebook constructs,
the `task_key` values of the tasks are pairwise distinct. -/
theorem workflow_task_keys_distinct :
    (taskKeys dbt_pipeline_workflow).Nodup
  ∧ (taskKeys conditional_workflow).Nodup
  ∧ (taskKeys foreach_workflow).Nodup
  ∧ (taskKeys parameterized_workflow).Nodup := by decide

/-- C3: in each of the four workflow definitions, every `depends_on` entry
refers to a task declared in the same workflow, and the dependency graph is
acyclic. -/
theorem workflow_deps_declared_acyclic :
    (allWorkflows.all fun w => depsDeclared w && acyclic w) = true := by rfl

/-- C4: in each of the four workflow definitions, every condition task has
exactly two outgoing outcome-tagged successor edges, one tagged `"true"` and
one tagged `"false"`; the only condition task is `evaluate_anomalies` in
`conditional_workflow`, with `"true"` successor `full_refresh_gold` and
`"false"` successor `incremental_gold`. -/
theorem condition_branches_complete :
    allWorkflows.all branchesComplete = true
  ∧ (allWorkflows.map fun w =>
      (w.tasks.filter (fun t => t.payload.isCondition)).map (·.task_key)) =
      [[], ["evaluate_anomalies"], [], []]
  ∧ outcomeEdges conditional_workflow "evaluate_anomalies" "true" = ["full_refresh_gold"]
  ∧ outcomeEdges conditional_workflow "evaluate_anomalies" "false" = ["incremental_gold"] :=
  ⟨rfl, rfl, rfl, rfl⟩

/-- C5: the notebook's module-level execution trace consists only of prints
(banner strings and JSON dumps of the dictionaries it builds); it contains
no HTTP request, no environment-variable read and no secret read — the
jobs/create submission cell is commented out and contributes nothing to the
trace. -/
theorem notebook_effects_only_prints :
    notebookTrace.all Effect.isPrint = true ∧ notebookTrace.length = 10 :=
  ⟨rfl, rfl⟩

/-- C6: each of the four serialized workflow documents matches the required
top-level wire shape: a string `name`, a `tasks` array of task objects each
carrying a string `task_key`, at most one payload variant field, and (when
present) a `depends_on` array of objects with a string `task_key` and an
optional string `outcome`. -/
theorem serialized_wire_shape :
    (allWorkflows.all fun w => wireShape (serializeWorkflow w)) = true := by rfl

/-- C7: `add_for_each` with concurrency 0 fails with
`InvalidConcurrencyError` for every workflow and arguments, while
concurrency 3 succeeds on a workflow not containing the key; the one ForEach
node in the constructed workflows, `analyze_per_plant` in
`foreach_workflow`, has concurrency 3, and every ForEach concurrency bound
in the four workflows is ≥ 1. -/
theorem foreach_concurrency_bound :
    (∀ w key ref sk tpl, add_for_each w key ref sk tpl 0 =
        Except.error BuilderError.invalidConcurrencyError)
  ∧ (add_for_each dbt_pipeline_workflow "analyze_per_plant"
       "\x7b\x7btasks.get_plant_locations.values\x7d\x7d" "plant_health_check"
       (.sqlTask "q" whId) 3).isOk = true
  ∧ (allWorkflows.map forEachConcurrencies) = [[], [], [3], []]
  ∧ (allWorkflows.all fun w => (forEachConcurrencies w).all (fun c => Nat.ble 1 c)) = true :=
  ⟨fun _ _ _ _ _ => rfl, rfl, rfl, rfl⟩

/-- C8: every templated placeholder string of the four constructed workflows
is carried into the serialized document verbatim: every workflow string
value containing `{{` occurs unchanged among the document's string values,
and the particular placeholders
`{{tasks.check_anomaly_count.values.anomaly_status}}`,
`{{tasks.get_plant_locations.values}}`, `{{job.parameters.environment}}` and
`{{input}}` all occur in the corresponding serialized output. -/
theorem placeholders_verbatim :
    (allWorkflows.all fun w =>
      ((workflowStrings w).filter hasPlaceholder).all
        (fun s => (jStrings 12 (serializeWorkflow w)).contains s)) = true
  ∧ (jStrings 12 (serializeWorkflow conditional_workflow)).contains
      "\x7b\x7btasks.check_anomaly_count.values.anomaly_status\x7d\x7d" = true
  ∧ (jStrings 12 (serializeWorkflow foreach_workflow)).contains
      "\x7b\x7btasks.get_plant_locations.values\x7d\x7d" = true
  ∧ ((jStrings 12 (serializeWorkflow foreach_workflow)).any
      (fun s => containsSub s "\x7b\x7binput\x7d\x7d")) = true
  ∧ ((jStrings 12 (serializeWorkflow parameterized_workflow)).any
      (fun s => containsSub s "\x7b\x7bjob.parameters.environment\x7d\x7d")) = true := by
  refine ⟨?_, ?_, ?_, ?_, ?_⟩ <;> rfl

/-- C9: for every workflow and arguments, `add_task` with a key already
present fails with `DuplicateKeyError`, and with a fresh key returns the
handle (the key) together with the workflow extended by exactly the one new
task — no other part of the workflow changes. -/
theorem add_task_contract (w : Workflow) (key : String) (p : TaskPayload)
    (tmo : Option Nat) (rp : Option RetryPolicy) :
    ((taskKeys w).contains key = true →
      add_task w key p tmo rp = Except.error BuilderError.duplicateKeyError)
  ∧ ((taskKeys w).contains key = false →
      add_task w key p tmo rp = Except.ok
        ({ w with tasks := w.tasks ++
            [{ task_key := key, payload := p, timeout_seconds := tmo,
               retry_policy := rp }] }, key)) := by
  refine ⟨fun h => ?_, fun h => ?_⟩ <;> unfold add_task <;> rw [h] <;> rfl

/-- Witness for C9 at concrete inputs: key `dbt_seed` is already present in
`dbt_pipeline_workflow` and `add_task` rejects it; key `publish_gold` is
fresh and `add_task` appends exactly the one new task. -/
theorem add_task_contract_witness :
    ((taskKeys dbt_pipeline_workflow).contains "dbt_seed" = true
      ∧ add_task dbt_pipeline_workflow "dbt_seed" (.sqlTask "q" whId) none none =
          Except.error BuilderError.duplicateKeyError)
  ∧ ((taskKeys dbt_pipeline_workflow).contains "publish_gold" = false
      ∧ add_task dbt_pipeline_workflow "publish_gold" (.sqlTask "q" whId) none none =
          Except.ok
            ({ dbt_pipeline_workflow with tasks := dbt_pipeline_workflow.tasks ++
                [{ task_key := "publish_gold", payload := .sqlTask "q" whId,
                   timeout_seconds := none, retry_policy := none }] }, "publish_gold")) :=
  ⟨⟨by decide,
    (add_task_contract dbt_pipeline_workflow "dbt_seed" (.sqlTask "q" whId) none none).1
      (by decide)⟩,
   ⟨by decide,
    (add_task_contract dbt_pipeline_workflow "publish_gold" (.sqlTask "q" whId) none none).2
      (by decide)⟩⟩

/-- C10: in each of the four workflow definitions, a `depends_on` entry
carries an `outcome` tag only when the task it refers to is a condition
task; every edge referring to a non-condition task is untagged. -/
theorem outcomes_only_on_condition_tasks :
    (allWorkflows.all outcomesOnlyOnConditions) = true := by rfl

end Wf
